import Mathlib

/-!
Shallow embedding of the Stock-Management frontend (React/JS) for verification.

Each page's event handlers are translated into pure Lean functions over explicit
state records.  Network calls are modelled by oracles (functions from request
payloads to results) passed as parameters; the list of calls a handler issues is
returned as part of its outcome, so request counts and ordering are observable.
JS strings stay `String`; JS numbers produced by `parseFloat` on numeric-input
strings are modelled as `Option Rat` (none models NaN); JS objects whose shape
matters are structures, and dynamically typed error payloads are a small `JsVal`
type with JS truthiness and a model of JSON.stringify.
-/

namespace StockMgmt

/-- Model of a dynamically typed JS value, as needed for backend error payloads
(`error.response.data.detail` can be a string, a number, a list of validation
errors, or absent). `vundef` models `undefined`. -/
inductive JsVal : Type where
  | vundef : JsVal
  | vstr : String → JsVal
  | vnum : Int → JsVal
  | varr : List JsVal → JsVal

/-- JS truthiness: `undefined`, the empty string and `0` are falsy; every array
(including the empty array) is truthy. -/
def jsTruthy : JsVal → Bool
  | JsVal.vundef => false
  | JsVal.vstr s => s ≠ ""
  | JsVal.vnum n => n ≠ 0
  | JsVal.varr _ => true

/-- Whether `typeof v === 'string'` holds. -/
def isStringVal : JsVal → Bool
  | JsVal.vstr _ => true
  | _ => false

mutual

/-- Model of `JSON.stringify` on `JsVal` (strings quoted, arrays bracketed). -/
def jsStringify : JsVal → String
  | JsVal.vundef => "undefined"
  | JsVal.vstr s => "\"" ++ s ++ "\""
  | JsVal.vnum n => toString n
  | JsVal.varr l => "[" ++ jsStringifyList l ++ "]"

/-- Comma-separated serialization of a list of JS values. -/
def jsStringifyList : List JsVal → String
  | [] => ""
  | [v] => jsStringify v
  | v :: rest => jsStringify v ++ "," ++ jsStringifyList rest

end

/-- Model of the JS `||` operator on values: left operand when truthy, else right. -/
def jsOr (a b : JsVal) : JsVal := if jsTruthy a then a else b

/-- JS array index assignment `l[i] = x` on a dense array: an in-range write
replaces the element, a write at index `length` appends.  (A write past the end
creates a sparse array, not representable as a list; no claim reaches it.) -/
def jsArraySet {α : Type} (l : List α) (i : Nat) (x : α) : List α :=
  if i < l.length then l.set i x
  else if i = l.length then l ++ [x]
  else l

/-- Digit string to natural number (helper for the parseFloat model). -/
def natOfDigits (cs : List Char) : Nat :=
  cs.foldl (fun acc c => acc * 10 + (c.toNat - Char.toNat '0')) 0

/-- Model of JS `parseFloat` on the value strings produced by numeric form
inputs (an optional minus sign, digits, an optional fractional part).  Strings
outside that grammar map to `none`, modelling NaN. -/
def parseFloatModel (s : String) : Option Rat :=
  let neg : Bool := s.startsWith "-"
  let body : String := if neg then s.drop 1 else s
  match body.splitOn "." with
  | [intPart] =>
      if intPart ≠ "" ∧ intPart.toList.all Char.isDigit then
        let v : Rat := (natOfDigits intPart.toList : Nat)
        some (if neg then -v else v)
      else none
  | [intPart, fracPart] =>
      if intPart ≠ "" ∧ intPart.toList.all Char.isDigit ∧ fracPart.toList.all Char.isDigit then
        let v : Rat :=
          (natOfDigits intPart.toList : Nat) +
            (natOfDigits fracPart.toList : Nat) / ((10 : Rat) ^ fracPart.length)
        some (if neg then -v else v)
      else none
  | _ => none

/-- Model of `new Date(d).toISOString()` for a date-input value `YYYY-MM-DD`
(parsed as UTC midnight). -/
def jsToISO (d : String) : String := d ++ "T00:00:00.000Z"

namespace StockPage

/-- One row of the server-computed stock summary (`GET /stock`).  An absent
`item_description` is modelled as the empty string (both are JS-falsy);
`rate` may be null. -/
structure StockRow : Type where
  item_code : String
  item_description : String
  category : String
  opening_stk : Int
  inward_qty : Int
  issue_qty : Int
  rate : Option Int
  closing_stk : Int
deriving DecidableEq, Repr

/-- An inward transaction entry as returned by `GET /inward`. -/
structure InwardEntry : Type where
  entry_id : String
  date : String
  item_code : String
  inward_qty : Int
  supplier : String
  ref_no : String
deriving DecidableEq, Repr

/-- An issue transaction entry as returned by `GET /issue`. -/
structure IssueEntry : Type where
  entry_id : String
  date : String
  item_code : String
  issued_qty : Int
  created_by : String
deriving DecidableEq, Repr

/-- Result of one `api.get` call: success carries the response data, which may
be null (`none`), and a rejection carries the error's `detail` and `message`
payloads used by the catch branch. -/
inductive FetchResult (α : Type) : Type where
  | ok : Option (List α) → FetchResult α
  | err : JsVal → JsVal → FetchResult α

/-- Whether a fetch result is a rejection. -/
def FetchResult.isErr {α : Type} : FetchResult α → Bool
  | FetchResult.ok _ => false
  | FetchResult.err _ _ => true

/-- Local state of the stock statement view that `fetchStock` touches. -/
structure State : Type where
  stockData : List StockRow
  inwardEntries : List InwardEntry
  issueEntries : List IssueEntry
  expandedItemCode : Option String
deriving DecidableEq

/-- One of the three API requests `fetchStock` can issue, with the date-range
query parameters it carries. -/
inductive ApiRequest : Type where
  | getStock : String → String → ApiRequest
  | getInward : String → String → ApiRequest
  | getIssue : String → String → ApiRequest
deriving DecidableEq, Repr

/-- Everything observable about one `fetchStock` run: the requests issued, the
resulting view state, and the error toast if one was shown. -/
structure FetchOutcome : Type where
  requests : List ApiRequest
  state : State
  toastError : Option String

/-- Message computed by the catch branch of `fetchStock`:
`error.response?.data?.detail || error.message || 'Failed to fetch stock statement or transactions'`,
then shown directly when it is a string and JSON-serialized otherwise. -/
def stockCatchMessage (detail errMessage : JsVal) : String :=
  let message := jsOr detail (jsOr errMessage
    (JsVal.vstr "Failed to fetch stock statement or transactions"))
  match message with
  | JsVal.vstr s => s
  | v => jsStringify v

/-- The `detail` and `message` of the first rejected fetch, used for the single
error toast of the combined fetch (Promise.all rejects with one error). -/
def firstRejection {α β γ : Type} :
    FetchResult α → FetchResult β → FetchResult γ → JsVal × JsVal
  | FetchResult.err d m, _, _ => (d, m)
  | FetchResult.ok _, FetchResult.err d m, _ => (d, m)
  | FetchResult.ok _, FetchResult.ok _, FetchResult.err d m => (d, m)
  | FetchResult.ok _, FetchResult.ok _, FetchResult.ok _ => (JsVal.vundef, JsVal.vundef)

/-- Model of `fetchStock`: with an empty date the three collections are cleared
without any request; otherwise three requests go out together (Promise.all) and
either all three collections are replaced by the responses (`|| []` turns a null
body into the empty list) or, on any rejection, all three are cleared and one
error toast is shown.  `setExpandedItemCode(null)` runs in every branch. -/
def fetchStock (fromDate toDate : String)
    (stockResp : FetchResult StockRow) (inwardResp : FetchResult InwardEntry)
    (issueResp : FetchResult IssueEntry) (st : State) : FetchOutcome :=
  if fromDate = "" ∨ toDate = "" then
    { requests := []
      state := { st with stockData := [], inwardEntries := [], issueEntries := [],
                         expandedItemCode := none }
      toastError := none }
  else
    let reqs := [ApiRequest.getStock fromDate toDate,
                 ApiRequest.getInward fromDate toDate,
                 ApiRequest.getIssue fromDate toDate]
    match stockResp, inwardResp, issueResp with
    | FetchResult.ok ds, FetchResult.ok di, FetchResult.ok de =>
        { requests := reqs
          state := { st with stockData := ds.getD [], inwardEntries := di.getD [],
                             issueEntries := de.getD [], expandedItemCode := none }
          toastError := none }
    | rs, ri, re =>
        let dm := firstRejection rs ri re
        { requests := reqs
          state := { st with stockData := [], inwardEntries := [], issueEntries := [],
                             expandedItemCode := none }
          toastError := some (stockCatchMessage dm.1 dm.2) }

/-- Model of `toggleExpand`: collapse when the clicked item is the one already
expanded, otherwise expand the clicked item. -/
def toggleExpand (itemCode : String) (prev : Option String) : Option String :=
  if prev = some itemCode then none else some itemCode

/-- Whether the row of `code` renders expanded, given the expansion state
(`expandedItemCode === stock.item_code`). -/
def isExpandedIn (expanded : Option String) (code : String) : Prop :=
  expanded = some code

instance (expanded : Option String) (code : String) :
    Decidable (isExpandedIn expanded code) := by
  unfold isExpandedIn; infer_instance

/-- Split a character list at every occurrence of `c` (used to take a
`YYYY-MM-DD` value apart; kernel-evaluable, unlike `String.splitOn`). -/
def splitOnChar (c : Char) : List Char → List (List Char)
  | [] => [[]]
  | x :: xs =>
      let r := splitOnChar c xs
      if x = c then [] :: r
      else
        match r with
        | [] => [[x]]
        | g :: gs => (x :: g) :: gs

/-- The dash-separated components of a date-input value. -/
def dateParts (s : String) : List String :=
  (splitOnChar '-' s.data).map List.asString

/-- Model of `toDDMMYYYY`: format a `YYYY-MM-DD` date-input value as
`DD/MM/YYYY`; the empty string stays empty.  (Values outside that shape make
date-fns throw; they are left unchanged here and no claim reaches them.) -/
def toDDMMYYYY (iso : String) : String :=
  if iso = "" then ""
  else match dateParts iso with
    | [y, m, d] => d ++ "/" ++ m ++ "/" ++ y
    | _ => iso

/-- One cell of an export row: a number or a string (the Rate cell is the empty
string when `rate` is null). -/
inductive Cell : Type where
  | num : Int → Cell
  | str : String → Cell
deriving DecidableEq, Repr

/-- The column names of an export row, in order. -/
def exportColumns : List String :=
  ["Start Date", "End Date", "Item Code", "Item Name", "Opening Stock",
   "Inward Qty", "Issue Qty", "Rate", "Closing Stock"]

/-- One flat export row built from a summary row: the selected date range
echoed (formatted DD/MM/YYYY), then the summary fields.  `Item Name` falls back
to the item code when the description is falsy. -/
def exportRow (fromDate toDate : String) (s : StockRow) : List (String × Cell) :=
  [("Start Date", Cell.str (toDDMMYYYY fromDate)),
   ("End Date", Cell.str (toDDMMYYYY toDate)),
   ("Item Code", Cell.str s.item_code),
   ("Item Name", Cell.str (if s.item_description ≠ "" then s.item_description else s.item_code)),
   ("Opening Stock", Cell.num s.opening_stk),
   ("Inward Qty", Cell.num s.inward_qty),
   ("Issue Qty", Cell.num s.issue_qty),
   ("Rate", match s.rate with | some r => Cell.num r | none => Cell.str ""),
   ("Closing Stock", Cell.num s.closing_stk)]

/-- Model of `getExportRows`: one flat row per summary item. -/
def getExportRows (fromDate toDate : String) (stockData : List StockRow) :
    List (List (String × Cell)) :=
  stockData.map (exportRow fromDate toDate)

/-- Model of `handleDownloadCSV`: no file when there are no summary rows,
otherwise a file named from the selected range holding the export rows. -/
def handleDownloadCSV (fromDate toDate : String) (stockData : List StockRow) :
    Option (String × List (List (String × Cell))) :=
  if stockData.length = 0 then none
  else some ("stock-statement_" ++ fromDate ++ "_to_" ++ toDate ++ ".csv",
             getExportRows fromDate toDate stockData)

/-- Model of `handleDownloadExcel`: same rows and base name, `.xlsx` extension. -/
def handleDownloadExcel (fromDate toDate : String) (stockData : List StockRow) :
    Option (String × List (List (String × Cell))) :=
  if stockData.length = 0 then none
  else some ("stock-statement_" ++ fromDate ++ "_to_" ++ toDate ++ ".xlsx",
             getExportRows fromDate toDate stockData)

/-- The `disabled` prop of both export buttons: `!stockData.length`. -/
def exportButtonsDisabled (stockData : List StockRow) : Bool :=
  stockData.length = 0

end StockPage

namespace InwardPage

/-- The inward entry form (`formData`): all fields are input/select value
strings; an unfilled field is the empty string. -/
structure Form : Type where
  date : String
  item_code : String
  inward_qty : String
  inward_rate : String
  supplier : String
  ref_no : String
deriving DecidableEq, Repr

/-- Model of `resetForm`: today's date (from `new Date().toISOString().split('T')[0]`,
passed in as `today`) and every other field empty. -/
def resetForm (today : String) : Form :=
  { date := today, item_code := "", inward_qty := "", inward_rate := "",
    supplier := "", ref_no := "" }

/-- The dialog state the staged-entry handlers touch: the staging list
(`tempItems`), the index being edited (`editingIndex`), the form, and whether
the dialog is open. -/
structure DialogState : Type where
  tempItems : List Form
  editingIndex : Option Nat
  formData : Form
  dialogOpen : Bool
deriving DecidableEq

/-- Outcome of `handleAddItem`: the new dialog state plus the toast shown. -/
structure AddOutcome : Type where
  state : DialogState
  toastError : Option String
  toastSuccess : Option String
deriving DecidableEq

/-- Model of `handleAddItem`: reject with a field-completeness error when any
of the five checked fields is empty (the date field is guarded by the browser's
required attribute and is not checked here, mirroring the source); otherwise
replace the line at `editingIndex` when editing, else append, and reset. -/
def handleAddItem (today : String) (st : DialogState) : AddOutcome :=
  if st.formData.item_code = "" ∨ st.formData.inward_qty = "" ∨
     st.formData.inward_rate = "" ∨ st.formData.supplier = "" ∨
     st.formData.ref_no = "" then
    { state := st, toastError := some "Please fill all fields", toastSuccess := none }
  else
    match st.editingIndex with
    | some i =>
        { state := { st with tempItems := jsArraySet st.tempItems i st.formData,
                             editingIndex := none, formData := resetForm today }
          toastError := none, toastSuccess := some "Item updated" }
    | none =>
        { state := { st with tempItems := st.tempItems ++ [st.formData],
                             formData := resetForm today }
          toastError := none, toastSuccess := some "Item added to list" }

/-- Model of `handleEditItem`: load the staged line back into the form and mark
its index as being edited.  (The index always comes from the rendered staging
list, so it is in range; the `getD` fallback is unreachable.) -/
def handleEditItem (index : Nat) (st : DialogState) : DialogState :=
  { st with formData := st.tempItems.getD index st.formData,
            editingIndex := some index }

/-- Model of `handleDeleteItem`: drop the line at `index`
(`filter((_, i) => i !== index)`), and clear the edit state and the form only
when that line was the one being edited.  An unconditional success toast is
shown; it is not part of the state. -/
def handleDeleteItem (today : String) (index : Nat) (st : DialogState) : DialogState :=
  if st.editingIndex = some index then
    { st with tempItems := st.tempItems.eraseIdx index,
              editingIndex := none, formData := resetForm today }
  else
    { st with tempItems := st.tempItems.eraseIdx index }

/-- The JSON body of one `POST /inward` call, built from a staged line. -/
structure Payload : Type where
  date : String
  item_code : String
  inward_qty : Option Rat
  inward_rate : Option Rat
  supplier : String
  ref_no : String
deriving DecidableEq

/-- Payload construction from a staged line (`new Date(...).toISOString()`,
`parseFloat` on the quantity and rate strings). -/
def toPayload (item : Form) : Payload :=
  { date := jsToISO item.date
    item_code := item.item_code
    inward_qty := parseFloatModel item.inward_qty
    inward_rate := parseFloatModel item.inward_rate
    supplier := item.supplier
    ref_no := item.ref_no }

/-- The sequential submission loop of `handleSubmit`: post one staged line at a
time, in list order; the first rejection aborts the rest and its `detail`
payload is carried out.  Returns the calls issued and the rejection, if any. -/
def submitLoop (post : Payload → Except JsVal Unit) :
    List Form → List Payload × Option JsVal
  | [] => ([], none)
  | item :: rest =>
      let p := toPayload item
      match post p with
      | Except.ok _ =>
          let r := submitLoop post rest
          (p :: r.1, r.2)
      | Except.error d => ([p], some d)

/-- Message computed by the catch branch of `handleSubmit`: the backend detail
verbatim when it is a string, a generic message otherwise. -/
def submitCatchMessage (detail : JsVal) : String :=
  match detail with
  | JsVal.vstr s => s
  | _ => "Operation failed"

/-- Outcome of `handleSubmit`: the new dialog state, the POST calls issued in
order, whether the entry list was re-fetched, and the toasts. -/
structure SubmitOutcome : Type where
  state : DialogState
  calls : List Payload
  refetch : Bool
  toastError : Option String
  toastSuccess : Option String

/-- Model of `handleSubmit`: reject an empty staging list before any call;
otherwise post each staged line sequentially.  On full success reset the form,
empty the staging list, close the dialog and re-fetch the entries; on a failure
report the error and change nothing else (lines already posted stay posted). -/
def handleSubmit (post : Payload → Except JsVal Unit) (today : String)
    (st : DialogState) : SubmitOutcome :=
  if st.tempItems.length = 0 then
    { state := st, calls := [], refetch := false
      toastError := some "Please add at least one item", toastSuccess := none }
  else
    let r := submitLoop post st.tempItems
    match r.2 with
    | none =>
        { state := { st with tempItems := [], formData := resetForm today,
                             dialogOpen := false }
          calls := r.1, refetch := true
          toastError := none
          toastSuccess := some "All inward entries created successfully" }
    | some d =>
        { state := st, calls := r.1, refetch := false
          toastError := some (submitCatchMessage d), toastSuccess := none }

end InwardPage

namespace IssuePage

/-- The issue entry form (`formData`): date, item and quantity value strings. -/
structure Form : Type where
  date : String
  item_code : String
  issued_qty : String
deriving DecidableEq, Repr

/-- Model of `resetForm`: today's date and the other fields empty. -/
def resetForm (today : String) : Form :=
  { date := today, item_code := "", issued_qty := "" }

/-- The dialog state of the issue staging dialog. -/
structure DialogState : Type where
  tempItems : List Form
  editingIndex : Option Nat
  formData : Form
  dialogOpen : Bool
deriving DecidableEq

/-- Outcome of `handleAddItem` on the issue page. -/
structure AddOutcome : Type where
  state : DialogState
  toastError : Option String
  toastSuccess : Option String
deriving DecidableEq

/-- Model of the issue page's `handleAddItem`: reject when the item code or the
quantity is empty (the date field is guarded by the browser's required
attribute, mirroring the source); otherwise replace when editing, else append. -/
def handleAddItem (today : String) (st : DialogState) : AddOutcome :=
  if st.formData.item_code = "" ∨ st.formData.issued_qty = "" then
    { state := st, toastError := some "Please fill all fields", toastSuccess := none }
  else
    match st.editingIndex with
    | some i =>
        { state := { st with tempItems := jsArraySet st.tempItems i st.formData,
                             editingIndex := none, formData := resetForm today }
          toastError := none, toastSuccess := some "Item updated" }
    | none =>
        { state := { st with tempItems := st.tempItems ++ [st.formData],
                             formData := resetForm today }
          toastError := none, toastSuccess := some "Item added to list" }

/-- Model of the issue page's `handleEditItem`. -/
def handleEditItem (index : Nat) (st : DialogState) : DialogState :=
  { st with formData := st.tempItems.getD index st.formData,
            editingIndex := some index }

/-- Model of the issue page's `handleDeleteItem`. -/
def handleDeleteItem (today : String) (index : Nat) (st : DialogState) : DialogState :=
  if st.editingIndex = some index then
    { st with tempItems := st.tempItems.eraseIdx index,
              editingIndex := none, formData := resetForm today }
  else
    { st with tempItems := st.tempItems.eraseIdx index }

/-- The JSON body of one `POST /issue` call. -/
structure Payload : Type where
  date : String
  item_code : String
  issued_qty : Option Rat
deriving DecidableEq

/-- Payload construction from a staged issue line. -/
def toPayload (item : Form) : Payload :=
  { date := jsToISO item.date
    item_code := item.item_code
    issued_qty := parseFloatModel item.issued_qty }

/-- The sequential submission loop of the issue page's `handleSubmit`. -/
def submitLoop (post : Payload → Except JsVal Unit) :
    List Form → List Payload × Option JsVal
  | [] => ([], none)
  | item :: rest =>
      let p := toPayload item
      match post p with
      | Except.ok _ =>
          let r := submitLoop post rest
          (p :: r.1, r.2)
      | Except.error d => ([p], some d)

/-- Message computed by the catch branch of the issue page's `handleSubmit`. -/
def submitCatchMessage (detail : JsVal) : String :=
  match detail with
  | JsVal.vstr s => s
  | _ => "Operation failed"

/-- Outcome of the issue page's `handleSubmit`. -/
structure SubmitOutcome : Type where
  state : DialogState
  calls : List Payload
  refetch : Bool
  toastError : Option String
  toastSuccess : Option String

/-- Model of the issue page's `handleSubmit` (same control flow as the inward
page, smaller payload). -/
def handleSubmit (post : Payload → Except JsVal Unit) (today : String)
    (st : DialogState) : SubmitOutcome :=
  if st.tempItems.length = 0 then
    { state := st, calls := [], refetch := false
      toastError := some "Please add at least one item", toastSuccess := none }
  else
    let r := submitLoop post st.tempItems
    match r.2 with
    | none =>
        { state := { st with tempItems := [], formData := resetForm today,
                             dialogOpen := false }
          calls := r.1, refetch := true
          toastError := none
          toastSuccess := some "All issue entries created successfully" }
    | some d =>
        { state := st, calls := r.1, refetch := false
          toastError := some (submitCatchMessage d), toastSuccess := none }

end IssuePage

/-- A parsed CSV data row as Papa.parse (header mode) delivers it: a JS object,
modelled as an association list from column name to cell value, keys in header
order. -/
def CsvRow : Type := List (String × String)

/-- Model of Papa.parse with `header: true` on a well-formed CSV (every record
as wide as the header row): each data row becomes an object whose keys are the
header names.  A CSV with only a header row yields no data rows. -/
def papaRows (headers : List String) (records : List (List String)) : List CsvRow :=
  records.map (fun r => headers.zip r)

/-- Field access `row.key` on a parsed row; an absent key reads as the empty
string (modelling `row.key || ''` for optional columns; required columns are
present whenever the header check passed). -/
def rowGet (row : CsvRow) (key : String) : String :=
  (List.lookup key row).getD ""

/-- Outcome of a CSV import handler: the create calls issued in order, whether
the master list was re-fetched, and the toasts. -/
structure CsvOutcome (π : Type) : Type where
  calls : List π
  refetch : Bool
  toastError : Option String
  toastSuccess : Option String

/-- The sequential per-row create loop shared by both CSV imports: post one row
payload at a time, in order; the first rejection aborts the rest. -/
def csvLoop {π : Type} (post : π → Except JsVal Unit) (payload : CsvRow → π) :
    List CsvRow → List π × Bool
  | [] => ([], true)
  | row :: rest =>
      let p := payload row
      match post p with
      | Except.ok _ =>
          let r := csvLoop post payload rest
          (p :: r.1, r.2)
      | Except.error _ => ([p], false)

namespace ItemMaster

/-- The required item CSV headers, in the order the source lists them. -/
def requiredHeaders : List String :=
  ["item_code", "item_name", "category", "uom", "item_rate"]

/-- The JSON body of one `POST /items` call built from a CSV row. -/
structure Payload : Type where
  item_code : String
  item_name : String
  category : String
  uom : String
  item_rate : Option Rat
deriving DecidableEq

/-- Payload construction from a parsed CSV row. -/
def toPayload (row : CsvRow) : Payload :=
  { item_code := rowGet row "item_code"
    item_name := rowGet row "item_name"
    category := rowGet row "category"
    uom := rowGet row "uom"
    item_rate := parseFloatModel (rowGet row "item_rate") }

/-- Model of the item master's `handleCSVUpload` completion callback, applied
to the parsed data rows: the required headers are checked against the keys of
the first data row (`Object.keys(rows[0] || {})`); when any is missing the
upload stops with a message naming the computed missing set and issues no
call, otherwise one create call per row runs sequentially, a failure aborting
the rest with a generic error. -/
def handleCSVUpload (post : Payload → Except JsVal Unit) (rows : List CsvRow) :
    CsvOutcome Payload :=
  let fileHeaders := (rows.head?.getD []).map Prod.fst
  let missingHeaders := requiredHeaders.filter (fun h => !(fileHeaders.contains h))
  if missingHeaders ≠ [] then
    { calls := [], refetch := false
      toastError := some ("Missing headers: " ++ String.intercalate ", " missingHeaders)
      toastSuccess := none }
  else
    let r := csvLoop post toPayload rows
    if r.2 then
      { calls := r.1, refetch := true
        toastError := none, toastSuccess := some "CSV items imported successfully" }
    else
      { calls := r.1, refetch := false
        toastError := some "Error importing CSV items", toastSuccess := none }

end ItemMaster

namespace SupplierMaster

/-- The required supplier CSV headers, in the order the source lists them. -/
def requiredHeaders : List String :=
  ["supplier_id", "supplier_name", "contact_person", "email", "phone"]

/-- The JSON body of one `POST /suppliers` call built from a CSV row; the
optional columns default to the empty string when absent. -/
structure Payload : Type where
  supplier_id : String
  supplier_name : String
  contact_person : String
  email : String
  phone : String
  address : String
  city : String
  state : String
  pincode : String
deriving DecidableEq

/-- Payload construction from a parsed CSV row. -/
def toPayload (row : CsvRow) : Payload :=
  { supplier_id := rowGet row "supplier_id"
    supplier_name := rowGet row "supplier_name"
    contact_person := rowGet row "contact_person"
    email := rowGet row "email"
    phone := rowGet row "phone"
    address := rowGet row "address"
    city := rowGet row "city"
    state := rowGet row "state"
    pincode := rowGet row "pincode" }

/-- Model of the supplier master's `handleCSVUpload` completion callback (same
control flow as the item master's). -/
def handleCSVUpload (post : Payload → Except JsVal Unit) (rows : List CsvRow) :
    CsvOutcome Payload :=
  let fileHeaders := (rows.head?.getD []).map Prod.fst
  let missingHeaders := requiredHeaders.filter (fun h => !(fileHeaders.contains h))
  if missingHeaders ≠ [] then
    { calls := [], refetch := false
      toastError := some ("Missing headers: " ++ String.intercalate ", " missingHeaders)
      toastSuccess := none }
  else
    let r := csvLoop post toPayload rows
    if r.2 then
      { calls := r.1, refetch := true
        toastError := none, toastSuccess := some "CSV suppliers imported successfully" }
    else
      { calls := r.1, refetch := false
        toastError := some "Error importing CSV suppliers", toastSuccess := none }

end SupplierMaster

/-! ### Helper lemmas -/

/-- Reading past a removed index: after erasing position `i`, position `j ≥ i`
holds what was at position `j + 1`. -/
theorem getElem?_eraseIdx_of_le {α : Type} :
    ∀ (l : List α) (i j : Nat), i < l.length → i ≤ j →
      (l.eraseIdx i)[j]? = l[j + 1]?
  | [], i, _, hi, _ => by simp at hi
  | _ :: _, 0, _, _, _ => by simp [List.eraseIdx]
  | _ :: _, i + 1, 0, _, hij => by omega
  | a :: t, i + 1, j + 1, hi, hij => by
      simpa [List.eraseIdx] using
        getElem?_eraseIdx_of_le t i j (by simpa using hi) (by omega)

/-! ### C6: single-expansion invariant of the stock statement -/

/-- C6: the expansion state is a single item-code value, so at most one row is
expanded in any state; expanding item B while A is expanded leaves only B
expanded, and toggling the currently expanded item collapses to none (and only
toggling it does). -/
theorem toggleExpand_single_expansion :
    (∀ (expanded : Option String) (a b : String),
       StockPage.isExpandedIn expanded a → StockPage.isExpandedIn expanded b → a = b) ∧
    (∀ a b : String, a ≠ b → StockPage.toggleExpand b (some a) = some b) ∧
    (∀ a : String, StockPage.toggleExpand a (some a) = none) ∧
    (∀ (prev : Option String) (a : String),
       StockPage.toggleExpand a prev = none ↔ prev = some a) := by
  refine ⟨?_, ?_, ?_, ?_⟩
  · intro expanded a b ha hb
    unfold StockPage.isExpandedIn at ha hb
    rw [ha] at hb
    exact Option.some.inj hb
  · intro a b hab
    unfold StockPage.toggleExpand
    rw [if_neg (by simpa using hab)]
  · intro a
    unfold StockPage.toggleExpand
    rw [if_pos rfl]
  · intro prev a
    unfold StockPage.toggleExpand
    by_cases h : prev = some a
    · simp [h]
    · simp [h]

/-- Witness for C6 at concrete item codes. -/
theorem toggleExpand_single_expansion_witness :
    ("A" : String) ≠ "B" ∧
    StockPage.toggleExpand "B" (some "A") = some "B" ∧
    StockPage.toggleExpand "A" (some "A") = none :=
  ⟨by decide, toggleExpand_single_expansion.2.1 "A" "B" (by decide),
    toggleExpand_single_expansion.2.2.1 "A"⟩

/-! ### C3: adding a staged line with an empty required field is rejected -/

/-- C3: in both the inward and the issue staging dialogs, when any required
form field is empty the add handler leaves the whole dialog state (staging
list, edit marker, form) unchanged and shows the field-completeness error
instead of appending or replacing. -/
theorem handleAddItem_empty_field_rejected :
    (∀ (today : String) (st : InwardPage.DialogState),
       (st.formData.item_code = "" ∨ st.formData.inward_qty = "" ∨
        st.formData.inward_rate = "" ∨ st.formData.supplier = "" ∨
        st.formData.ref_no = "") →
       (InwardPage.handleAddItem today st).state = st ∧
       (InwardPage.handleAddItem today st).toastError = some "Please fill all fields" ∧
       (InwardPage.handleAddItem today st).toastSuccess = none) ∧
    (∀ (today : String) (st : IssuePage.DialogState),
       (st.formData.item_code = "" ∨ st.formData.issued_qty = "") →
       (IssuePage.handleAddItem today st).state = st ∧
       (IssuePage.handleAddItem today st).toastError = some "Please fill all fields" ∧
       (IssuePage.handleAddItem today st).toastSuccess = none) := by
  constructor
  · intro today st h
    unfold InwardPage.handleAddItem
    rw [if_pos h]
    exact ⟨rfl, rfl, rfl⟩
  · intro today st h
    unfold IssuePage.handleAddItem
    rw [if_pos h]
    exact ⟨rfl, rfl, rfl⟩

/-- Witness for C3: a concrete state with an empty item code is left unchanged
by both add handlers. -/
theorem handleAddItem_empty_field_rejected_witness :
    (let stI : InwardPage.DialogState :=
      { tempItems := [], editingIndex := none,
        formData := { date := "2024-01-05", item_code := "", inward_qty := "2",
                      inward_rate := "3", supplier := "S1", ref_no := "R1" },
        dialogOpen := true }
     (InwardPage.handleAddItem "2024-01-05" stI).state = stI) ∧
    (let stJ : IssuePage.DialogState :=
      { tempItems := [], editingIndex := none,
        formData := { date := "2024-01-05", item_code := "", issued_qty := "2" },
        dialogOpen := true }
     (IssuePage.handleAddItem "2024-01-05" stJ).state = stJ) :=
  ⟨(handleAddItem_empty_field_rejected.1 "2024-01-05" _ (Or.inl rfl)).1,
   (handleAddItem_empty_field_rejected.2 "2024-01-05" _ (Or.inl rfl)).1⟩

/-! ### C5: edit then add replaces the line in place -/

/-- C5: in both staging dialogs, selecting line `i` for editing and then adding
with every required field of the form filled replaces exactly index `i` with
the current form contents: the length is unchanged, every other element is
unchanged, and the edit marker is cleared. -/
theorem edit_then_add_replaces_in_place :
    (∀ (today : String) (st : InwardPage.DialogState) (i : Nat) (f : InwardPage.Form),
       i < st.tempItems.length →
       f.item_code ≠ "" → f.inward_qty ≠ "" → f.inward_rate ≠ "" →
       f.supplier ≠ "" → f.ref_no ≠ "" →
       (InwardPage.handleAddItem today
          { InwardPage.handleEditItem i st with formData := f }).state.tempItems.length
           = st.tempItems.length ∧
       (InwardPage.handleAddItem today
          { InwardPage.handleEditItem i st with formData := f }).state.tempItems[i]?
           = some f ∧
       (∀ j : Nat, j ≠ i →
          (InwardPage.handleAddItem today
             { InwardPage.handleEditItem i st with formData := f }).state.tempItems[j]?
            = st.tempItems[j]?) ∧
       (InwardPage.handleAddItem today
          { InwardPage.handleEditItem i st with formData := f }).state.editingIndex
           = none) ∧
    (∀ (today : String) (st : IssuePage.DialogState) (i : Nat) (f : IssuePage.Form),
       i < st.tempItems.length →
       f.item_code ≠ "" → f.issued_qty ≠ "" →
       (IssuePage.handleAddItem today
          { IssuePage.handleEditItem i st with formData := f }).state.tempItems.length
           = st.tempItems.length ∧
       (IssuePage.handleAddItem today
          { IssuePage.handleEditItem i st with formData := f }).state.tempItems[i]?
           = some f ∧
       (∀ j : Nat, j ≠ i →
          (IssuePage.handleAddItem today
             { IssuePage.handleEditItem i st with formData := f }).state.tempItems[j]?
            = st.tempItems[j]?) ∧
       (IssuePage.handleAddItem today
          { IssuePage.handleEditItem i st with formData := f }).state.editingIndex
           = none) := by
  constructor
  · intro today st i f hi h1 h2 h3 h4 h5
    unfold InwardPage.handleAddItem InwardPage.handleEditItem
    rw [if_neg (by rintro (h | h | h | h | h) <;> contradiction)]
    simp only []
    unfold jsArraySet
    rw [if_pos hi]
    refine ⟨List.length_set _ _ _, List.getElem?_set_eq_of_lt f hi, ?_, by trivial⟩
    intro j hj
    exact List.getElem?_set_ne (Ne.symm hj)
  · intro today st i f hi h1 h2
    unfold IssuePage.handleAddItem IssuePage.handleEditItem
    rw [if_neg (by rintro (h | h) <;> contradiction)]
    simp only []
    unfold jsArraySet
    rw [if_pos hi]
    refine ⟨List.length_set _ _ _, List.getElem?_set_eq_of_lt f hi, ?_, by trivial⟩
    intro j hj
    exact List.getElem?_set_ne (Ne.symm hj)

/-- Witness for C5: editing the first of two staged inward lines (and the
first of two issue lines) and re-adding a filled form replaces it in place. -/
theorem edit_then_add_replaces_in_place_witness :
    (let l0 : InwardPage.Form :=
      { date := "2024-01-01", item_code := "A", inward_qty := "1",
        inward_rate := "5", supplier := "S1", ref_no := "R1" }
     let l1 : InwardPage.Form :=
      { date := "2024-01-02", item_code := "B", inward_qty := "2",
        inward_rate := "6", supplier := "S2", ref_no := "R2" }
     let f : InwardPage.Form :=
      { date := "2024-01-03", item_code := "C", inward_qty := "3",
        inward_rate := "7", supplier := "S3", ref_no := "R3" }
     let st : InwardPage.DialogState :=
      { tempItems := [l0, l1], editingIndex := none,
        formData := InwardPage.resetForm "2024-01-03", dialogOpen := true }
     (InwardPage.handleAddItem "2024-01-03"
        { InwardPage.handleEditItem 0 st with formData := f }).state.tempItems[0]?
       = some f) ∧
    (let j0 : IssuePage.Form := { date := "2024-01-01", item_code := "A", issued_qty := "1" }
     let j1 : IssuePage.Form := { date := "2024-01-02", item_code := "B", issued_qty := "2" }
     let g : IssuePage.Form := { date := "2024-01-03", item_code := "C", issued_qty := "3" }
     let st : IssuePage.DialogState :=
      { tempItems := [j0, j1], editingIndex := none,
        formData := IssuePage.resetForm "2024-01-03", dialogOpen := true }
     (IssuePage.handleAddItem "2024-01-03"
        { IssuePage.handleEditItem 0 st with formData := g }).state.tempItems[0]?
       = some g) :=
  ⟨(edit_then_add_replaces_in_place.1 "2024-01-03" _ 0 _ (by decide) (by decide)
      (by decide) (by decide) (by decide) (by decide)).2.1,
   (edit_then_add_replaces_in_place.2 "2024-01-03" _ 0 _ (by decide) (by decide)
      (by decide)).2.1⟩

/-! ### C9: deleting a line below the one being edited shifts the marker -/

/-- C9: in both staging dialogs, removing a staged line at an index strictly
below the edit marker keeps the marker value while the elements shift down, so
the marker now points at the element that used to sit one position later; the
marker is cleared exactly when the removed index equals it. -/
theorem delete_below_editing_index_shifts_marker :
    (∀ (today : String) (st : InwardPage.DialogState) (i j : Nat),
       st.editingIndex = some j → i < j → i < st.tempItems.length →
       (InwardPage.handleDeleteItem today i st).editingIndex = some j ∧
       (InwardPage.handleDeleteItem today i st).tempItems = st.tempItems.eraseIdx i ∧
       (InwardPage.handleDeleteItem today i st).tempItems[j]? = st.tempItems[j + 1]?) ∧
    (∀ (today : String) (st : InwardPage.DialogState) (i : Nat),
       (InwardPage.handleDeleteItem today i st).editingIndex = none ↔
         (st.editingIndex = none ∨ st.editingIndex = some i)) ∧
    (∀ (today : String) (st : IssuePage.DialogState) (i j : Nat),
       st.editingIndex = some j → i < j → i < st.tempItems.length →
       (IssuePage.handleDeleteItem today i st).editingIndex = some j ∧
       (IssuePage.handleDeleteItem today i st).tempItems = st.tempItems.eraseIdx i ∧
       (IssuePage.handleDeleteItem today i st).tempItems[j]? = st.tempItems[j + 1]?) ∧
    (∀ (today : String) (st : IssuePage.DialogState) (i : Nat),
       (IssuePage.handleDeleteItem today i st).editingIndex = none ↔
         (st.editingIndex = none ∨ st.editingIndex = some i)) := by
  refine ⟨?_, ?_, ?_, ?_⟩
  · intro today st i j hj hij hi
    unfold InwardPage.handleDeleteItem
    rw [if_neg (by rw [hj]; intro h; exact absurd (Option.some.inj h) (by omega))]
    exact ⟨hj, rfl, getElem?_eraseIdx_of_le st.tempItems i j hi (by omega)⟩
  · intro today st i
    unfold InwardPage.handleDeleteItem
    by_cases h : st.editingIndex = some i
    · simp [h]
    · cases he : st.editingIndex with
      | none => simp [he]
      | some k => rw [he] at h; simp [he, h]
  · intro today st i j hj hij hi
    unfold IssuePage.handleDeleteItem
    rw [if_neg (by rw [hj]; intro h; exact absurd (Option.some.inj h) (by omega))]
    exact ⟨hj, rfl, getElem?_eraseIdx_of_le st.tempItems i j hi (by omega)⟩
  · intro today st i
    unfold IssuePage.handleDeleteItem
    by_cases h : st.editingIndex = some i
    · simp [h]
    · cases he : st.editingIndex with
      | none => simp [he]
      | some k => rw [he] at h; simp [he, h]

/-- Witness for C9: with three staged lines and line 2 being edited, deleting
line 0 keeps the marker at 2, which now points past the shifted list. -/
theorem delete_below_editing_index_shifts_marker_witness :
    (let l0 : InwardPage.Form :=
      { date := "2024-01-01", item_code := "A", inward_qty := "1",
        inward_rate := "5", supplier := "S1", ref_no := "R1" }
     let l1 : InwardPage.Form :=
      { date := "2024-01-02", item_code := "B", inward_qty := "2",
        inward_rate := "6", supplier := "S2", ref_no := "R2" }
     let l2 : InwardPage.Form :=
      { date := "2024-01-03", item_code := "C", inward_qty := "3",
        inward_rate := "7", supplier := "S3", ref_no := "R3" }
     let st : InwardPage.DialogState :=
      { tempItems := [l0, l1, l2], editingIndex := some 2,
        formData := l2, dialogOpen := true }
     (InwardPage.handleDeleteItem "2024-01-04" 0 st).editingIndex = some 2 ∧
     (InwardPage.handleDeleteItem "2024-01-04" 0 st).tempItems[2]? =
       st.tempItems[3]?) ∧
    (let j0 : IssuePage.Form := { date := "2024-01-01", item_code := "A", issued_qty := "1" }
     let j1 : IssuePage.Form := { date := "2024-01-02", item_code := "B", issued_qty := "2" }
     let j2 : IssuePage.Form := { date := "2024-01-03", item_code := "C", issued_qty := "3" }
     let st : IssuePage.DialogState :=
      { tempItems := [j0, j1, j2], editingIndex := some 2,
        formData := j2, dialogOpen := true }
     (IssuePage.handleDeleteItem "2024-01-04" 0 st).editingIndex = some 2 ∧
     (IssuePage.handleDeleteItem "2024-01-04" 0 st).tempItems[2]? =
       st.tempItems[3]?) :=
  ⟨⟨(delete_below_editing_index_shifts_marker.1 "2024-01-04" _ 0 2 rfl (by decide)
       (by decide)).1,
    (delete_below_editing_index_shifts_marker.1 "2024-01-04" _ 0 2 rfl (by decide)
       (by decide)).2.2⟩,
   ⟨(delete_below_editing_index_shifts_marker.2.2.1 "2024-01-04" _ 0 2 rfl (by decide)
       (by decide)).1,
    (delete_below_editing_index_shifts_marker.2.2.1 "2024-01-04" _ 0 2 rfl (by decide)
       (by decide)).2.2⟩⟩

/-! ### C1: the combined stock fetch is all-or-nothing -/

/-- C1: with both dates selected, `fetchStock` issues exactly the three
requests (stock summary, inward, issue), and afterwards either all three local
collections hold the respective responses or, on any rejection of the combined
fetch, all three are empty and one error toast is shown; a partial mix of old
and new collections never results. -/
theorem fetchStock_all_or_nothing :
    ∀ (fromDate toDate : String) (rs : StockPage.FetchResult StockPage.StockRow)
      (ri : StockPage.FetchResult StockPage.InwardEntry)
      (rq : StockPage.FetchResult StockPage.IssueEntry) (st : StockPage.State),
      fromDate ≠ "" → toDate ≠ "" →
      (StockPage.fetchStock fromDate toDate rs ri rq st).requests =
          [StockPage.ApiRequest.getStock fromDate toDate,
           StockPage.ApiRequest.getInward fromDate toDate,
           StockPage.ApiRequest.getIssue fromDate toDate] ∧
      (StockPage.fetchStock fromDate toDate rs ri rq st).requests.length = 3 ∧
      ((∃ ds di dq,
          rs = StockPage.FetchResult.ok ds ∧ ri = StockPage.FetchResult.ok di ∧
          rq = StockPage.FetchResult.ok dq ∧
          (StockPage.fetchStock fromDate toDate rs ri rq st).state.stockData = ds.getD [] ∧
          (StockPage.fetchStock fromDate toDate rs ri rq st).state.inwardEntries = di.getD [] ∧
          (StockPage.fetchStock fromDate toDate rs ri rq st).state.issueEntries = dq.getD [] ∧
          (StockPage.fetchStock fromDate toDate rs ri rq st).toastError = none) ∨
       ((rs.isErr ∨ ri.isErr ∨ rq.isErr) ∧
          (StockPage.fetchStock fromDate toDate rs ri rq st).state.stockData = [] ∧
          (StockPage.fetchStock fromDate toDate rs ri rq st).state.inwardEntries = [] ∧
          (StockPage.fetchStock fromDate toDate rs ri rq st).state.issueEntries = [] ∧
          (StockPage.fetchStock fromDate toDate rs ri rq st).toastError.isSome)) := by
  intro fromDate toDate rs ri rq st hf ht
  have hcond : ¬ (fromDate = "" ∨ toDate = "") := by
    rintro (h | h) <;> contradiction
  cases rs with
  | ok ds =>
      cases ri with
      | ok di =>
          cases rq with
          | ok dq =>
              unfold StockPage.fetchStock
              rw [if_neg hcond]
              exact ⟨rfl, rfl, Or.inl ⟨ds, di, dq, rfl, rfl, rfl, rfl, rfl, rfl, rfl⟩⟩
          | err d m =>
              unfold StockPage.fetchStock
              rw [if_neg hcond]
              exact ⟨rfl, rfl, Or.inr ⟨Or.inr (Or.inr rfl), rfl, rfl, rfl, rfl⟩⟩
      | err d m =>
          cases rq <;>
            (unfold StockPage.fetchStock
             rw [if_neg hcond]
             exact ⟨rfl, rfl, Or.inr ⟨Or.inr (Or.inl rfl), rfl, rfl, rfl, rfl⟩⟩)
  | err d m =>
      cases ri <;> cases rq <;>
        (unfold StockPage.fetchStock
         rw [if_neg hcond]
         exact ⟨rfl, rfl, Or.inr ⟨Or.inl rfl, rfl, rfl, rfl, rfl⟩⟩)

/-- Witness for C1: a concrete run where the inward request rejects clears all
three collections; a fully successful run populates all three. -/
theorem fetchStock_all_or_nothing_witness :
    (let st0 : StockPage.State :=
      { stockData := [], inwardEntries := [], issueEntries := [],
        expandedItemCode := none }
     let bad := StockPage.fetchStock "2024-01-01" "2024-01-31"
       (StockPage.FetchResult.ok (some []))
       (StockPage.FetchResult.err (JsVal.vstr "boom") JsVal.vundef)
       (StockPage.FetchResult.ok (some [])) st0
     bad.requests.length = 3) ∧
    (let st0 : StockPage.State :=
      { stockData := [], inwardEntries := [], issueEntries := [],
        expandedItemCode := none }
     let good := StockPage.fetchStock "2024-01-01" "2024-01-31"
       (StockPage.FetchResult.ok (some []))
       (StockPage.FetchResult.ok none)
       (StockPage.FetchResult.ok (some [])) st0
     good.requests.length = 3) :=
  ⟨(fetchStock_all_or_nothing "2024-01-01" "2024-01-31" _ _ _ _ (by decide)
      (by decide)).2.1,
   (fetchStock_all_or_nothing "2024-01-01" "2024-01-31" _ _ _ _ (by decide)
      (by decide)).2.1⟩

/-! ### C7: export shape, date formatting, file names, disabled state -/

/-- C7: export builds one flat row per summary item with exactly the nine
columns in order, the selected from/to dates echoed in every row formatted
day/month/year; the files are named `stock-statement_<from>_to_<to>` with
extension `.csv` or `.xlsx`; with an empty summary both export actions are
disabled and produce no file. -/
theorem export_rows_columns_filenames :
    ∀ (fromDate toDate : String) (sd : List StockPage.StockRow)
      (y1 m1 d1 y2 m2 d2 : String),
      fromDate ≠ "" → toDate ≠ "" →
      StockPage.dateParts fromDate = [y1, m1, d1] →
      StockPage.dateParts toDate = [y2, m2, d2] →
      ((StockPage.getExportRows fromDate toDate sd).length = sd.length ∧
       (∀ r ∈ StockPage.getExportRows fromDate toDate sd,
          r.map Prod.fst = StockPage.exportColumns ∧
          List.lookup "Start Date" r =
            some (StockPage.Cell.str (d1 ++ "/" ++ m1 ++ "/" ++ y1)) ∧
          List.lookup "End Date" r =
            some (StockPage.Cell.str (d2 ++ "/" ++ m2 ++ "/" ++ y2))) ∧
       (sd ≠ [] →
          StockPage.handleDownloadCSV fromDate toDate sd =
            some ("stock-statement_" ++ fromDate ++ "_to_" ++ toDate ++ ".csv",
                  StockPage.getExportRows fromDate toDate sd) ∧
          StockPage.handleDownloadExcel fromDate toDate sd =
            some ("stock-statement_" ++ fromDate ++ "_to_" ++ toDate ++ ".xlsx",
                  StockPage.getExportRows fromDate toDate sd)) ∧
       (StockPage.exportButtonsDisabled [] = true ∧
        StockPage.handleDownloadCSV fromDate toDate [] = none ∧
        StockPage.handleDownloadExcel fromDate toDate [] = none)) := by
  intro fromDate toDate sd y1 m1 d1 y2 m2 d2 hf ht hsf hst
  have hfmtF : StockPage.toDDMMYYYY fromDate = d1 ++ "/" ++ m1 ++ "/" ++ y1 := by
    unfold StockPage.toDDMMYYYY
    rw [if_neg hf, hsf]
  have hfmtT : StockPage.toDDMMYYYY toDate = d2 ++ "/" ++ m2 ++ "/" ++ y2 := by
    unfold StockPage.toDDMMYYYY
    rw [if_neg ht, hst]
  refine ⟨?_, ?_, ?_, ?_⟩
  · exact List.length_map sd _
  · intro r hr
    obtain ⟨s, _, rfl⟩ := List.mem_map.mp hr
    refine ⟨rfl, ?_, ?_⟩
    · unfold StockPage.exportRow
      simp [List.lookup, hfmtF]
    · unfold StockPage.exportRow
      simp [List.lookup, hfmtT]
  · intro hne
    have hlen : ¬ sd.length = 0 := by
      simpa [List.length_eq_zero] using hne
    constructor
    · unfold StockPage.handleDownloadCSV
      rw [if_neg hlen]
    · unfold StockPage.handleDownloadExcel
      rw [if_neg hlen]
  · exact ⟨rfl, rfl, rfl⟩

/-- Witness for C7 at a concrete range and a one-row summary. -/
theorem export_rows_columns_filenames_witness :
    (("2024-01-01" : String) ≠ "" ∧
     StockPage.dateParts "2024-01-01" = ["2024", "01", "01"] ∧
     StockPage.dateParts "2024-01-31" = ["2024", "01", "31"]) ∧
    (let row : StockPage.StockRow :=
      { item_code := "IT1", item_description := "Bolt", category := "Hardware",
        opening_stk := 4, inward_qty := 6, issue_qty := 2, rate := some 10,
        closing_stk := 8 }
     (StockPage.getExportRows "2024-01-01" "2024-01-31" [row]).length = 1) :=
  ⟨⟨by decide, by decide, by decide⟩,
   (export_rows_columns_filenames "2024-01-01" "2024-01-31" _
      "2024" "01" "01" "2024" "01" "31" (by decide) (by decide) (by decide)
      (by decide)).1⟩

/-! ### C8: display of backend detail messages -/

/-- Counterexample to C8 as stated: in the stock fetch catch branch a truthy
non-string detail (here an empty validation-error array) is shown
JSON-serialized, not as a generic fallback message. -/
theorem stock_catch_nonstring_detail_counterexample :
    StockPage.stockCatchMessage (JsVal.varr []) JsVal.vundef = "[]" ∧
    StockPage.stockCatchMessage (JsVal.varr []) JsVal.vundef ≠
      "Failed to fetch stock statement or transactions" ∧
    StockPage.stockCatchMessage (JsVal.varr []) JsVal.vundef ≠ "Operation failed" := by
  refine ⟨rfl, ?_, ?_⟩ <;> decide

/-- C8 amended: the inward submit handler shows a string detail verbatim and
the generic message otherwise; the stock fetch handler shows a nonempty string
detail verbatim, but shows a truthy non-string detail JSON-serialized, and with
the detail absent falls back to the transport error message and then to the
generic fetch-failure message. -/
theorem backend_detail_message_display :
    (∀ s : String, InwardPage.submitCatchMessage (JsVal.vstr s) = s) ∧
    (∀ d : JsVal, isStringVal d = false →
       InwardPage.submitCatchMessage d = "Operation failed") ∧
    (∀ s : String, s ≠ "" → ∀ em : JsVal,
       StockPage.stockCatchMessage (JsVal.vstr s) em = s) ∧
    (∀ d : JsVal, jsTruthy d = true → isStringVal d = false → ∀ em : JsVal,
       StockPage.stockCatchMessage d em = jsStringify d) ∧
    (∀ s : String, s ≠ "" →
       StockPage.stockCatchMessage JsVal.vundef (JsVal.vstr s) = s) ∧
    (StockPage.stockCatchMessage JsVal.vundef JsVal.vundef =
       "Failed to fetch stock statement or transactions") := by
  refine ⟨?_, ?_, ?_, ?_, ?_, rfl⟩
  · intro s
    rfl
  · intro d hd
    cases d with
    | vundef => rfl
    | vstr s => simp [isStringVal] at hd
    | vnum n => rfl
    | varr l => rfl
  · intro s hs em
    unfold StockPage.stockCatchMessage jsOr
    rw [if_pos (by simpa [jsTruthy] using hs)]
  · intro d hd hnd em
    cases d with
    | vundef => simp [jsTruthy] at hd
    | vstr s => simp [isStringVal] at hnd
    | vnum n =>
        unfold StockPage.stockCatchMessage jsOr
        rw [if_pos hd]
    | varr l =>
        unfold StockPage.stockCatchMessage jsOr
        rw [if_pos hd]
  · intro s hs
    unfold StockPage.stockCatchMessage jsOr
    rw [if_neg (by simp [jsTruthy]), if_pos (by simpa [jsTruthy] using hs)]

/-- Witness for the amended C8 at concrete messages. -/
theorem backend_detail_message_display_witness :
    InwardPage.submitCatchMessage (JsVal.vstr "Item not found") = "Item not found" ∧
    (("Item not found" : String) ≠ "" ∧
     StockPage.stockCatchMessage (JsVal.vstr "Item not found") JsVal.vundef =
       "Item not found") ∧
    (jsTruthy (JsVal.vnum 7) = true ∧ isStringVal (JsVal.vnum 7) = false ∧
     StockPage.stockCatchMessage (JsVal.vnum 7) JsVal.vundef = jsStringify (JsVal.vnum 7)) :=
  ⟨backend_detail_message_display.1 "Item not found",
   ⟨by decide,
    backend_detail_message_display.2.2.1 "Item not found" (by decide) JsVal.vundef⟩,
   ⟨rfl, rfl,
    backend_detail_message_display.2.2.2.1 (JsVal.vnum 7) rfl rfl JsVal.vundef⟩⟩

/-! ### C2: missing CSV headers abort the import with the missing set -/

/-- Counterexample to C2 as stated: an item CSV whose header row lacks only
`item_rate` but has zero data rows reports all five required headers missing,
not exactly the one absent from the header set (no create call is made,
though). -/
theorem csv_missing_header_report_counterexample :
    (ItemMaster.handleCSVUpload (fun _ => Except.ok ())
       (papaRows ["item_code", "item_name", "category", "uom"] [])).calls = [] ∧
    ItemMaster.requiredHeaders.filter
        (fun h => !(List.contains ["item_code", "item_name", "category", "uom"] h))
      = ["item_rate"] ∧
    (ItemMaster.handleCSVUpload (fun _ => Except.ok ())
       (papaRows ["item_code", "item_name", "category", "uom"] [])).toastError
      = some "Missing headers: item_code, item_name, category, uom, item_rate" ∧
    (ItemMaster.handleCSVUpload (fun _ => Except.ok ())
       (papaRows ["item_code", "item_name", "category", "uom"] [])).toastError
      ≠ some "Missing headers: item_rate" := by
  refine ⟨rfl, by decide, rfl, ?_⟩
  intro h
  exact absurd (Option.some.inj h) (by decide)

/-- C2 amended: for every uploaded CSV with at least one data row whose header
set lacks a required column, both imports make zero create calls and the error
names exactly the required headers absent from the header set (the required
headers are checked against the keys of the first data row, which for a CSV
with data rows are the header names; a CSV with zero data rows instead reports
every required header as missing). -/
theorem csv_missing_headers_zero_calls_exact_report :
    (∀ (post : ItemMaster.Payload → Except JsVal Unit) (headers : List String)
       (records : List (List String)),
       records ≠ [] → (∀ r ∈ records, headers.length ≤ r.length) →
       ItemMaster.requiredHeaders.filter (fun h => !(headers.contains h)) ≠ [] →
       (ItemMaster.handleCSVUpload post (papaRows headers records)).calls = [] ∧
       (ItemMaster.handleCSVUpload post (papaRows headers records)).toastError =
         some ("Missing headers: " ++ String.intercalate ", "
           (ItemMaster.requiredHeaders.filter (fun h => !(headers.contains h))))) ∧
    (∀ (post : SupplierMaster.Payload → Except JsVal Unit) (headers : List String)
       (records : List (List String)),
       records ≠ [] → (∀ r ∈ records, headers.length ≤ r.length) →
       SupplierMaster.requiredHeaders.filter (fun h => !(headers.contains h)) ≠ [] →
       (SupplierMaster.handleCSVUpload post (papaRows headers records)).calls = [] ∧
       (SupplierMaster.handleCSVUpload post (papaRows headers records)).toastError =
         some ("Missing headers: " ++ String.intercalate ", "
           (SupplierMaster.requiredHeaders.filter (fun h => !(headers.contains h))))) := by
  constructor
  · intro post headers records hne hwf hmiss
    obtain ⟨r0, rest, rfl⟩ : ∃ r0 rest, records = r0 :: rest := by
      cases records with
      | nil => exact absurd rfl hne
      | cons a t => exact ⟨a, t, rfl⟩
    have hfh : ((papaRows headers (r0 :: rest)).head?.getD []).map Prod.fst = headers := by
      simp only [papaRows, List.map_cons, List.head?_cons, Option.getD_some]
      exact List.map_fst_zip headers r0 (hwf r0 (List.mem_cons_self r0 rest))
    unfold ItemMaster.handleCSVUpload
    rw [hfh, if_pos hmiss]
    exact ⟨rfl, rfl⟩
  · intro post headers records hne hwf hmiss
    obtain ⟨r0, rest, rfl⟩ : ∃ r0 rest, records = r0 :: rest := by
      cases records with
      | nil => exact absurd rfl hne
      | cons a t => exact ⟨a, t, rfl⟩
    have hfh : ((papaRows headers (r0 :: rest)).head?.getD []).map Prod.fst = headers := by
      simp only [papaRows, List.map_cons, List.head?_cons, Option.getD_some]
      exact List.map_fst_zip headers r0 (hwf r0 (List.mem_cons_self r0 rest))
    unfold SupplierMaster.handleCSVUpload
    rw [hfh, if_pos hmiss]
    exact ⟨rfl, rfl⟩

/-- Witness for the amended C2: a one-data-row item CSV missing `item_rate`
(and a supplier CSV missing `phone`) makes no call and reports exactly that
header. -/
theorem csv_missing_headers_zero_calls_exact_report_witness :
    ((ItemMaster.handleCSVUpload (fun _ => Except.ok ())
        (papaRows ["item_code", "item_name", "category", "uom"]
          [["A1", "Bolt", "Hardware", "Pcs"]])).calls = [] ∧
     (ItemMaster.handleCSVUpload (fun _ => Except.ok ())
        (papaRows ["item_code", "item_name", "category", "uom"]
          [["A1", "Bolt", "Hardware", "Pcs"]])).toastError =
       some ("Missing headers: " ++ String.intercalate ", "
         (ItemMaster.requiredHeaders.filter
           (fun h => !(List.contains ["item_code", "item_name", "category", "uom"] h))))) ∧
    ((SupplierMaster.handleCSVUpload (fun _ => Except.ok ())
        (papaRows ["supplier_id", "supplier_name", "contact_person", "email"]
          [["S1", "Acme", "Jo", "jo@acme.test"]])).calls = [] ∧
     (SupplierMaster.handleCSVUpload (fun _ => Except.ok ())
        (papaRows ["supplier_id", "supplier_name", "contact_person", "email"]
          [["S1", "Acme", "Jo", "jo@acme.test"]])).toastError =
       some ("Missing headers: " ++ String.intercalate ", "
         (SupplierMaster.requiredHeaders.filter
           (fun h => !(List.contains
             ["supplier_id", "supplier_name", "contact_person", "email"] h))))) :=
  ⟨csv_missing_headers_zero_calls_exact_report.1 (fun _ => Except.ok ()) _ _
     (by decide) (by decide) (by decide),
   csv_missing_headers_zero_calls_exact_report.2 (fun _ => Except.ok ()) _ _
     (by decide) (by decide) (by decide)⟩

/-! ### C10: a CSV with a correct header but zero data rows is rejected -/

/-- C10: both imports validate the required headers against the keys of the
first parsed data row, so a CSV with a correct header row but zero data rows is
rejected with every required header reported missing and zero create calls. -/
theorem csv_zero_data_rows_rejected :
    (∀ (post : ItemMaster.Payload → Except JsVal Unit) (headers : List String),
       (∀ h ∈ ItemMaster.requiredHeaders, headers.contains h) →
       (ItemMaster.handleCSVUpload post (papaRows headers [])).calls = [] ∧
       (ItemMaster.handleCSVUpload post (papaRows headers [])).toastError =
         some ("Missing headers: " ++ String.intercalate ", "
           ItemMaster.requiredHeaders)) ∧
    (∀ (post : SupplierMaster.Payload → Except JsVal Unit) (headers : List String),
       (∀ h ∈ SupplierMaster.requiredHeaders, headers.contains h) →
       (SupplierMaster.handleCSVUpload post (papaRows headers [])).calls = [] ∧
       (SupplierMaster.handleCSVUpload post (papaRows headers [])).toastError =
         some ("Missing headers: " ++ String.intercalate ", "
           SupplierMaster.requiredHeaders)) := by
  constructor
  · intro post headers _
    exact ⟨rfl, rfl⟩
  · intro post headers _
    exact ⟨rfl, rfl⟩

/-- Witness for C10: a header row holding every required column with zero data
rows still rejects with all required headers reported, for both imports. -/
theorem csv_zero_data_rows_rejected_witness :
    ((ItemMaster.handleCSVUpload (fun _ => Except.ok ())
        (papaRows ["item_code", "item_name", "category", "uom", "item_rate"] [])).calls
       = [] ∧
     (ItemMaster.handleCSVUpload (fun _ => Except.ok ())
        (papaRows ["item_code", "item_name", "category", "uom", "item_rate"] [])).toastError
       = some ("Missing headers: " ++ String.intercalate ", "
           ItemMaster.requiredHeaders)) ∧
    ((SupplierMaster.handleCSVUpload (fun _ => Except.ok ())
        (papaRows ["supplier_id", "supplier_name", "contact_person", "email", "phone"]
          [])).calls = [] ∧
     (SupplierMaster.handleCSVUpload (fun _ => Except.ok ())
        (papaRows ["supplier_id", "supplier_name", "contact_person", "email", "phone"]
          [])).toastError
       = some ("Missing headers: " ++ String.intercalate ", "
           SupplierMaster.requiredHeaders)) :=
  ⟨csv_zero_data_rows_rejected.1 (fun _ => Except.ok ()) _ (by decide),
   csv_zero_data_rows_rejected.2 (fun _ => Except.ok ()) _ (by decide)⟩

/-! ### C4: commit posts the staged lines sequentially, aborting on failure -/

/-- Characterization of the inward submission loop: the calls issued are the
successful prefix of the staged payloads followed by the first failing payload
(if any), and the loop reports no rejection exactly when every payload posts
successfully. -/
theorem submitLoop_inward_spec (post : InwardPage.Payload → Except JsVal Unit) :
    ∀ l : List InwardPage.Form,
      (InwardPage.submitLoop post l).1 =
        ((l.map InwardPage.toPayload).takeWhile fun p => (post p).isOk) ++
          (((l.map InwardPage.toPayload).dropWhile fun p => (post p).isOk).take 1) ∧
      ((InwardPage.submitLoop post l).2 = none ↔
        ((l.map InwardPage.toPayload).all fun p => (post p).isOk) = true)
  | [] => by simp [InwardPage.submitLoop]
  | a :: t => by
      have ih := submitLoop_inward_spec post t
      cases hp : post (InwardPage.toPayload a) with
      | ok u =>
          have hb : (post (InwardPage.toPayload a)).isOk = true := by rw [hp]; rfl
          constructor
          · simp [InwardPage.submitLoop, hp, List.takeWhile_cons, List.dropWhile_cons,
              Except.isOk, Except.toBool, ih.1]
          · simp [InwardPage.submitLoop, hp, List.all_cons, Except.isOk, Except.toBool,
              ih.2]
      | error d =>
          have hb : (post (InwardPage.toPayload a)).isOk = false := by rw [hp]; rfl
          constructor
          · simp [InwardPage.submitLoop, hp, List.takeWhile_cons, List.dropWhile_cons,
              Except.isOk, Except.toBool]
          · simp [InwardPage.submitLoop, hp, List.all_cons, Except.isOk, Except.toBool]

/-- Characterization of the issue submission loop (same loop, issue payloads). -/
theorem submitLoop_issue_spec (post : IssuePage.Payload → Except JsVal Unit) :
    ∀ l : List IssuePage.Form,
      (IssuePage.submitLoop post l).1 =
        ((l.map IssuePage.toPayload).takeWhile fun p => (post p).isOk) ++
          (((l.map IssuePage.toPayload).dropWhile fun p => (post p).isOk).take 1) ∧
      ((IssuePage.submitLoop post l).2 = none ↔
        ((l.map IssuePage.toPayload).all fun p => (post p).isOk) = true)
  | [] => by simp [IssuePage.submitLoop]
  | a :: t => by
      have ih := submitLoop_issue_spec post t
      cases hp : post (IssuePage.toPayload a) with
      | ok u =>
          have hb : (post (IssuePage.toPayload a)).isOk = true := by rw [hp]; rfl
          constructor
          · simp [IssuePage.submitLoop, hp, List.takeWhile_cons, List.dropWhile_cons,
              Except.isOk, Except.toBool, ih.1]
          · simp [IssuePage.submitLoop, hp, List.all_cons, Except.isOk, Except.toBool,
              ih.2]
      | error d =>
          have hb : (post (IssuePage.toPayload a)).isOk = false := by rw [hp]; rfl
          constructor
          · simp [IssuePage.submitLoop, hp, List.takeWhile_cons, List.dropWhile_cons,
              Except.isOk, Except.toBool]
          · simp [IssuePage.submitLoop, hp, List.all_cons, Except.isOk, Except.toBool]

/-- C4: committing a non-empty staging list posts one create call per staged
line in input order, one at a time; the calls stop right after the first
failure (no call for any later line, no compensating call for already created
lines, state untouched, error reported); on full success the staging list
empties, the dialog closes and the entry list is re-fetched. -/
theorem staged_submit_sequential_abort :
    (∀ (post : InwardPage.Payload → Except JsVal Unit) (today : String)
       (st : InwardPage.DialogState), st.tempItems ≠ [] →
       ((InwardPage.handleSubmit post today st).calls =
          ((st.tempItems.map InwardPage.toPayload).takeWhile fun p => (post p).isOk) ++
            (((st.tempItems.map InwardPage.toPayload).dropWhile fun p => (post p).isOk).take 1)) ∧
       ((((st.tempItems.map InwardPage.toPayload).all fun p => (post p).isOk) = true) →
          (InwardPage.handleSubmit post today st).calls =
            st.tempItems.map InwardPage.toPayload ∧
          (InwardPage.handleSubmit post today st).state.tempItems = [] ∧
          (InwardPage.handleSubmit post today st).state.dialogOpen = false ∧
          (InwardPage.handleSubmit post today st).refetch = true) ∧
       ((((st.tempItems.map InwardPage.toPayload).all fun p => (post p).isOk) = false) →
          (InwardPage.handleSubmit post today st).toastError.isSome ∧
          (InwardPage.handleSubmit post today st).refetch = false ∧
          (InwardPage.handleSubmit post today st).state = st)) ∧
    (∀ (post : IssuePage.Payload → Except JsVal Unit) (today : String)
       (st : IssuePage.DialogState), st.tempItems ≠ [] →
       ((IssuePage.handleSubmit post today st).calls =
          ((st.tempItems.map IssuePage.toPayload).takeWhile fun p => (post p).isOk) ++
            (((st.tempItems.map IssuePage.toPayload).dropWhile fun p => (post p).isOk).take 1)) ∧
       ((((st.tempItems.map IssuePage.toPayload).all fun p => (post p).isOk) = true) →
          (IssuePage.handleSubmit post today st).calls =
            st.tempItems.map IssuePage.toPayload ∧
          (IssuePage.handleSubmit post today st).state.tempItems = [] ∧
          (IssuePage.handleSubmit post today st).state.dialogOpen = false ∧
          (IssuePage.handleSubmit post today st).refetch = true) ∧
       ((((st.tempItems.map IssuePage.toPayload).all fun p => (post p).isOk) = false) →
          (IssuePage.handleSubmit post today st).toastError.isSome ∧
          (IssuePage.handleSubmit post today st).refetch = false ∧
          (IssuePage.handleSubmit post today st).state = st)) := by
  constructor
  · intro post today st hne
    have hlen : ¬ st.tempItems.length = 0 := by
      simpa [List.length_eq_zero] using hne
    have hspec := submitLoop_inward_spec post st.tempItems
    cases hr : (InwardPage.submitLoop post st.tempItems).2 with
    | none =>
        have hall : ((st.tempItems.map InwardPage.toPayload).all
            fun p => (post p).isOk) = true := hspec.2.mp hr
        have hdrop : ((st.tempItems.map InwardPage.toPayload).dropWhile
            fun p => (post p).isOk) = [] := by
          rw [List.dropWhile_eq_nil_iff]
          intro x hx
          exact List.all_eq_true.mp hall x hx
        have htake : ((st.tempItems.map InwardPage.toPayload).takeWhile
            fun p => (post p).isOk) = st.tempItems.map InwardPage.toPayload := by
          rw [List.takeWhile_eq_self_iff]
          intro x hx
          exact List.all_eq_true.mp hall x hx
        have hout : InwardPage.handleSubmit post today st =
            { state := { st with tempItems := [], formData := InwardPage.resetForm today,
                                 dialogOpen := false }
              calls := (InwardPage.submitLoop post st.tempItems).1, refetch := true
              toastError := none
              toastSuccess := some "All inward entries created successfully" } := by
          unfold InwardPage.handleSubmit
          rw [if_neg hlen]
          simp only [hr]
        refine ⟨?_, ?_, ?_⟩
        · rw [hout]
          exact hspec.1
        · intro _
          rw [hout]
          exact ⟨by rw [hspec.1, hdrop, htake, List.take_nil, List.append_nil], rfl, rfl, rfl⟩
        · intro hfalse
          rw [hall] at hfalse
          cases hfalse
    | some d =>
        have hall : ¬ ((st.tempItems.map InwardPage.toPayload).all
            fun p => (post p).isOk) = true := by
          intro h
          rw [hspec.2.mpr h] at hr
          cases hr
        have hout : InwardPage.handleSubmit post today st =
            { state := st, calls := (InwardPage.submitLoop post st.tempItems).1,
              refetch := false
              toastError := some (InwardPage.submitCatchMessage d)
              toastSuccess := none } := by
          unfold InwardPage.handleSubmit
          rw [if_neg hlen]
          simp only [hr]
        refine ⟨?_, ?_, ?_⟩
        · rw [hout]
          exact hspec.1
        · intro h
          exact absurd h hall
        · intro _
          rw [hout]
          exact ⟨rfl, rfl, rfl⟩
  · intro post today st hne
    have hlen : ¬ st.tempItems.length = 0 := by
      simpa [List.length_eq_zero] using hne
    have hspec := submitLoop_issue_spec post st.tempItems
    cases hr : (IssuePage.submitLoop post st.tempItems).2 with
    | none =>
        have hall : ((st.tempItems.map IssuePage.toPayload).all
            fun p => (post p).isOk) = true := hspec.2.mp hr
        have hdrop : ((st.tempItems.map IssuePage.toPayload).dropWhile
            fun p => (post p).isOk) = [] := by
          rw [List.dropWhile_eq_nil_iff]
          intro x hx
          exact List.all_eq_true.mp hall x hx
        have htake : ((st.tempItems.map IssuePage.toPayload).takeWhile
            fun p => (post p).isOk) = st.tempItems.map IssuePage.toPayload := by
          rw [List.takeWhile_eq_self_iff]
          intro x hx
          exact List.all_eq_true.mp hall x hx
        have hout : IssuePage.handleSubmit post today st =
            { state := { st with tempItems := [], formData := IssuePage.resetForm today,
                                 dialogOpen := false }
              calls := (IssuePage.submitLoop post st.tempItems).1, refetch := true
              toastError := none
              toastSuccess := some "All issue entries created successfully" } := by
          unfold IssuePage.handleSubmit
          rw [if_neg hlen]
          simp only [hr]
        refine ⟨?_, ?_, ?_⟩
        · rw [hout]
          exact hspec.1
        · intro _
          rw [hout]
          exact ⟨by rw [hspec.1, hdrop, htake, List.take_nil, List.append_nil], rfl, rfl, rfl⟩
        · intro hfalse
          rw [hall] at hfalse
          cases hfalse
    | some d =>
        have hall : ¬ ((st.tempItems.map IssuePage.toPayload).all
            fun p => (post p).isOk) = true := by
          intro h
          rw [hspec.2.mpr h] at hr
          cases hr
        have hout : IssuePage.handleSubmit post today st =
            { state := st, calls := (IssuePage.submitLoop post st.tempItems).1,
              refetch := false
              toastError := some (IssuePage.submitCatchMessage d)
              toastSuccess := none } := by
          unfold IssuePage.handleSubmit
          rw [if_neg hlen]
          simp only [hr]
        refine ⟨?_, ?_, ?_⟩
        · rw [hout]
          exact hspec.1
        · intro h
          exact absurd h hall
        · intro _
          rw [hout]
          exact ⟨rfl, rfl, rfl⟩

/-- Witness for C4: two staged inward lines whose second post fails issue both
calls and stop; two staged issue lines that both succeed clear the dialog. -/
theorem staged_submit_sequential_abort_witness :
    (let l0 : InwardPage.Form :=
      { date := "2024-01-01", item_code := "A", inward_qty := "1",
        inward_rate := "5", supplier := "S1", ref_no := "R1" }
     let l1 : InwardPage.Form :=
      { date := "2024-01-02", item_code := "B", inward_qty := "2",
        inward_rate := "6", supplier := "S2", ref_no := "R2" }
     let post : InwardPage.Payload → Except JsVal Unit := fun p =>
       if p.item_code = "B" then Except.error (JsVal.vstr "insufficient stock")
       else Except.ok ()
     let st : InwardPage.DialogState :=
      { tempItems := [l0, l1], editingIndex := none,
        formData := InwardPage.resetForm "2024-01-02", dialogOpen := true }
     (InwardPage.handleSubmit post "2024-01-02" st).calls =
        (([l0, l1].map InwardPage.toPayload).takeWhile fun p => (post p).isOk) ++
          ((([l0, l1].map InwardPage.toPayload).dropWhile fun p => (post p).isOk).take 1)) ∧
    (let j0 : IssuePage.Form := { date := "2024-01-01", item_code := "A", issued_qty := "1" }
     let j1 : IssuePage.Form := { date := "2024-01-02", item_code := "B", issued_qty := "2" }
     let post : IssuePage.Payload → Except JsVal Unit := fun _ => Except.ok ()
     let st : IssuePage.DialogState :=
      { tempItems := [j0, j1], editingIndex := none,
        formData := IssuePage.resetForm "2024-01-02", dialogOpen := true }
     (IssuePage.handleSubmit post "2024-01-02" st).state.tempItems = [] ∧
     (IssuePage.handleSubmit post "2024-01-02" st).state.dialogOpen = false ∧
     (IssuePage.handleSubmit post "2024-01-02" st).refetch = true) :=
  ⟨(staged_submit_sequential_abort.1 _ "2024-01-02" _ (by decide)).1,
   (let h := (staged_submit_sequential_abort.2 _ "2024-01-02" _ (by decide)).2.1
      (by decide)
    ⟨h.2.1, h.2.2.1, h.2.2.2⟩)⟩

end StockMgmt
